import Mathlib

/-!
Verification of the launchy protocol codec and flush planner.

This file is a shallow embedding of the repository's Rust sources:

* src/generic/input.rs        — the generic (Launchpad S / Mini style) input decoder
* src/launchpad_mk2/input.rs  — the Launchpad MK2 input decoder
* src/protocols/query.rs      — the shared device/version-inquiry sub-protocol
* src/launchpad_mini/mod.rs   — the Launchpad Mini device spec and flush planner

Bytes are modelled as natural numbers, byte buffers as lists of naturals.
Rust code paths that panic (unexpected message patterns, velocity values,
unsigned-integer underflow in debug builds, failed try_into conversions) are
modelled as `Option.none`: the decode does not produce a message value.
-/

set_option maxHeartbeats 1000000

namespace Launchy

/-- Big-endian combination of two bytes, as computed by u16 from be bytes. -/
def u16_from_be (hi lo : Nat) : Nat := hi * 256 + lo

/-- Modelled from the spec: the full-precision color type of the canvas module
(absent from src/). Spec section 1 treats the RGB to device-precision
quantization as a provided external collaborator, so the channel representation
is irrelevant here; the quantization itself is a parameter of the flush model. -/
structure Color where
  red : Nat
  green : Nat
  blue : Nat
  deriving DecidableEq

namespace Generic

/-- Buttons of the generic (Launchpad S / Mini style) device. -/
inductive Button where
  | gridButton (x y : Nat)
  | controlButton (index : Nat)
  deriving DecidableEq

/-- A generic Launchpad input message (src/generic/input.rs, enum Message). -/
inductive Message where
  | press (button : Button)
  | release (button : Button)
  | textEndedOrLooped
  | deviceInquiry (device_id family_code family_member_code firmware_revision : Nat)
  | versionInquiry (bootloader_version firmware_version bootloader_size : Nat)
  deriving DecidableEq

/-- src/generic/input.rs decode_grid_button: x = btn % 16, y = btn / 16. -/
def decode_grid_button (btn : Nat) : Button :=
  Button.gridButton (btn % 16) (btn / 16)

/-- src/generic/input.rs decode_short_message. A panic in the source is `none`;
the source's match on the velocity literals 0 and 127 is rendered as the
equivalent sequential comparison. -/
def decode_short_message (data : List Nat) : Option Message :=
  match data with
  -- Note on
  | [0x90, button, velocity] =>
    let button := decode_grid_button button
    if velocity = 0 then some (Message.release button)
    else if velocity = 127 then some (Message.press button)
    else none
  -- Controller change (number @ 104..=111)
  | [0xB0, number, velocity] =>
    if 104 ≤ number ∧ number ≤ 111 then
      let button := Button.controlButton (number - 104)
      if velocity = 0 then some (Message.release button)
      else if velocity = 127 then some (Message.press button)
      else none
    else none
  | _ => none

/-- src/generic/input.rs decode_sysex_message. The version-inquiry arm of the
source matches any middle slice and then aborts via try_into unless it has
exactly 12 bytes; both the non-matching and the wrong-length cases are `none`. -/
def decode_sysex_message (data : List Nat) : Option Message :=
  match data with
  -- Device-specific message types
  | [240, 0, 32, 41, 2, 24, 21, 247] => some Message.textEndedOrLooped
  -- Common message types
  | [240, 126, device_id, 6, 2, 0, 32, 41, fc1, fc2, fmc1, fmc2, fr1, fr2, fr3, fr4, 247] =>
    some (Message.deviceInquiry device_id
      (u16_from_be fc1 fc2)
      (u16_from_be fmc1 fmc2)
      (fr1 * 1000 + fr2 * 100 + fr3 * 10 + fr4))
  | 240 :: 0 :: 32 :: 41 :: 0 :: 112 :: rest =>
    match rest with
    | [d0, d1, d2, d3, d4, d5, d6, d7, d8, d9, _d10, _d11, bs1, bs2, 247] =>
      some (Message.versionInquiry
        (d0 * 10000 + d1 * 1000 + d2 * 100 + d3 * 10 + d4)
        (d5 * 10000 + d6 * 1000 + d7 * 100 + d8 * 10 + d9)
        (u16_from_be bs1 bs2))
    | _ => none
  | _ => none

/-- src/generic/input.rs decode_message: length 3 buffers are short messages,
everything else goes to the sysex decoder. -/
def decode_message (data : List Nat) : Option Message :=
  if data.length = 3 then decode_short_message data else decode_sysex_message data

/-- Modelled from the spec: the generic models number raw MIDI note values as
row*16+col (spec section 4.1), and the composition with the decoder must error
or be excluded for invalid coordinates (spec section 8). Valid grid coordinates
in the decoder coordinate space are the 9 columns and the 8 grid rows below the
control row of the Mini geometry. The encode-side output modules are absent
from src/. -/
def grid_is_valid (x y : Nat) : Bool :=
  x ≤ 8 && y ≤ 7

/-- Modelled from the spec: the inverse numeric mapping of decode_grid_button,
row*16+col numbering (spec section 4.1), excluded on invalid coordinates. -/
def grid_to_wire (x y : Nat) : Option Nat :=
  if grid_is_valid x y then some (y * 16 + x) else none

end Generic

namespace Mk2

/-- Buttons of the Launchpad MK2 device. -/
inductive Button where
  | gridButton (x y : Nat)
  | controlButton (index : Nat)
  deriving DecidableEq

/-- A Launchpad MK2 input message (src/launchpad_mk2/input.rs, enum Message). -/
inductive Message where
  | press (button : Button)
  | release (button : Button)
  | textEndedOrLooped
  | deviceInquiry (device_id family_code family_member_code firmware_revision : Nat)
  | versionInquiry (bootloader_version firmware_version bootloader_size : Nat)
  | faderChange (index value : Nat)
  deriving DecidableEq

/-- src/launchpad_mk2/input.rs decode_grid_button: x = (btn % 10) - 1 and
y = 8 - (btn / 10) on u8. Either subtraction underflows the unsigned byte when
btn % 10 = 0 (for x) or btn / 10 > 8 (for y); an underflow aborts the decode,
modelled as `none`. -/
def decode_grid_button (btn : Nat) : Option Button :=
  if btn % 10 = 0 then none
  else if 8 < btn / 10 then none
  else some (Button.gridButton (btn % 10 - 1) (8 - btn / 10))

/-- src/launchpad_mk2/input.rs decode_short_message. A panic in the source
(unexpected velocity, unexpected message, underflow in decode_grid_button)
is `none`; the underflow aborts before the velocity is examined, modelled by
Option.bind, and the match on the velocity literals 0 and 127 is rendered as
the equivalent sequential comparison. -/
def decode_short_message (data : List Nat) : Option Message :=
  match data with
  -- Note on
  | [0x90, button, velocity] =>
    (decode_grid_button button).bind (fun button =>
      if velocity = 0 then some (Message.release button)
      else if velocity = 127 then some (Message.press button)
      else none)
  | [0xB0, number, velocity] =>
    -- Controller change (number @ 104..=111)
    if 104 ≤ number ∧ number ≤ 111 then
      let button := Button.controlButton (number - 104)
      if velocity = 0 then some (Message.release button)
      else if velocity = 127 then some (Message.press button)
      else none
    -- Fader change (number @ 21..=28)
    else if 21 ≤ number ∧ number ≤ 28 then
      some (Message.faderChange (number - 21) velocity)
    else none
  | _ => none

/-- src/launchpad_mk2/input.rs decode_sysex_message; byte-for-byte the same
templates and formulas as the generic decoder. -/
def decode_sysex_message (data : List Nat) : Option Message :=
  match data with
  -- Device-specific message types
  | [240, 0, 32, 41, 2, 24, 21, 247] => some Message.textEndedOrLooped
  -- Common message types
  | [240, 126, device_id, 6, 2, 0, 32, 41, fc1, fc2, fmc1, fmc2, fr1, fr2, fr3, fr4, 247] =>
    some (Message.deviceInquiry device_id
      (u16_from_be fc1 fc2)
      (u16_from_be fmc1 fmc2)
      (fr1 * 1000 + fr2 * 100 + fr3 * 10 + fr4))
  | 240 :: 0 :: 32 :: 41 :: 0 :: 112 :: rest =>
    match rest with
    | [d0, d1, d2, d3, d4, d5, d6, d7, d8, d9, _d10, _d11, bs1, bs2, 247] =>
      some (Message.versionInquiry
        (d0 * 10000 + d1 * 1000 + d2 * 100 + d3 * 10 + d4)
        (d5 * 10000 + d6 * 1000 + d7 * 100 + d8 * 10 + d9)
        (u16_from_be bs1 bs2))
    | _ => none
  | _ => none

/-- src/launchpad_mk2/input.rs decode_message. -/
def decode_message (data : List Nat) : Option Message :=
  if data.length = 3 then decode_short_message data else decode_sysex_message data

/-- Modelled from the spec: valid MK2 grid coordinates in the decoder
coordinate space — the 8 by 8 main grid plus the right scene column, 9 columns
by 8 rows (spec sections 2 and 4.1; the MK2 output module is absent from src/). -/
def grid_is_valid (x y : Nat) : Bool :=
  x ≤ 8 && y ≤ 7

/-- Modelled from the spec: the inverse numeric mapping of the MK2
decode_grid_button — rows numbered bottom-up with an offset, wire number
(8-y)*10 + (x+1) (spec section 4.1), excluded on invalid coordinates. -/
def grid_to_wire (x y : Nat) : Option Nat :=
  if grid_is_valid x y then some ((8 - y) * 10 + (x + 1)) else none

end Mk2

namespace Query

/-- src/protocols/query.rs DeviceIdQuery. -/
inductive DeviceIdQuery where
  | specific (device_id : Nat)
  | any
  deriving DecidableEq

/-- src/protocols/query.rs struct DeviceInquiry. -/
structure DeviceInquiry where
  device_id : Nat
  family_code : Nat
  family_member_code : Nat
  firmware_revision : Nat
  deriving DecidableEq

/-- src/protocols/query.rs struct VersionInquiry. -/
structure VersionInquiry where
  bootloader_version : Nat
  firmware_version : Nat
  bootloader_size : Nat
  deriving DecidableEq

/-- src/protocols/query.rs request_device_inquiry, modelled as the byte buffer
handed to output.send. The source asserts the device id of a Specific query is
not 127 (QUERY_DEVICE_ID_FOR_ANY) before sending; the assertion failure is
`none`: rejected before any bytes are sent. -/
def request_device_inquiry : DeviceIdQuery → Option (List Nat)
  | DeviceIdQuery.specific device_id =>
    if device_id = 127 then none
    else some [240, 126, device_id, 6, 1, 247]
  | DeviceIdQuery.any => some [240, 126, 127, 6, 1, 247]

/-- src/protocols/query.rs request_version_inquiry, modelled as the byte
buffer handed to output.send. -/
def request_version_inquiry : List Nat := [240, 0, 32, 41, 0, 112, 247]

/-- src/protocols/query.rs parse_device_query. -/
def parse_device_query (data : List Nat) : Option DeviceInquiry :=
  match data with
  | [240, 126, device_id, 6, 2, 0, 32, 41, fc1, fc2, fmc1, fmc2, fr1, fr2, fr3, fr4, 247] =>
    some { device_id := device_id
           family_code := u16_from_be fc1 fc2
           family_member_code := u16_from_be fmc1 fmc2
           firmware_revision := fr1 * 1000 + fr2 * 100 + fr3 * 10 + fr4 }
  | _ => none

/-- src/protocols/query.rs parse_version_query. The source destructures the
17-byte buffer as [240, 0, 32, 41, 0, 112, bl1..bl4, fw1..fw4, bs1, bs2, 247]
but then reads data[0] (the constant 240) and data[5] (the constant 112) as the
times-10000 digit of the two versions; b0 and b5 below are those full-buffer
positions, kept exactly as the source computes them. -/
def parse_version_query (data : List Nat) : Option VersionInquiry :=
  match data with
  | [b0, b1, b2, b3, b4, b5, bl1, bl2, bl3, bl4, fw1, fw2, fw3, fw4, bs1, bs2, b16] =>
    if b0 = 240 ∧ b1 = 0 ∧ b2 = 32 ∧ b3 = 41 ∧ b4 = 0 ∧ b5 = 112 ∧ b16 = 247 then
      some { bootloader_version :=
               b0 * 10000 + bl1 * 1000 + bl2 * 100 + bl3 * 10 + bl4
             firmware_version :=
               b5 * 10000 + fw1 * 1000 + fw2 * 100 + fw3 * 10 + fw4
             bootloader_size := u16_from_be bs1 bs2 }
    else none
  | _ => none

/-- The shape of a device-inquiry reply buffer: the 17-byte template of
parse_device_query with its nine variable byte positions. -/
def IsDeviceInquiryReply (data : List Nat) : Prop :=
  ∃ device_id fc1 fc2 fmc1 fmc2 fr1 fr2 fr3 fr4 : Nat,
    data = [240, 126, device_id, 6, 2, 0, 32, 41,
            fc1, fc2, fmc1, fmc2, fr1, fr2, fr3, fr4, 247]

end Query

namespace Mini

/-- src/launchpad_mini/mod.rs Spec::is_valid. -/
def is_valid (x y : Nat) : Bool :=
  if x > 8 || y > 8 then false
  else if x == 8 && y == 0 then false
  else true

/-- The Launchpad Mini device color, Color::new(red, green) of the Mini output
module. -/
structure Color where
  red : Nat
  green : Nat
  deriving DecidableEq

/-- Color::new of the Mini output module. -/
def Color.new (red green : Nat) : Color := { red := red, green := green }

/-- Buttons of the Launchpad Mini (protocols Button80). -/
inductive Button where
  | gridButton (x y : Nat)
  | controlButton (index : Nat)
  deriving DecidableEq

/-- Modelled from the spec: Button80 from_abs (the protocols button module is
absent from src/). Control buttons are the row outside the main grid, the Mini
top row at absolute y = 0, addressed by a small index; grid buttons carry the
coordinates of the main matrix, absolute rows 1..8 (spec sections 3 and the
glossary). -/
def Button.from_abs (x y : Nat) : Button :=
  if y = 0 then Button.controlButton x else Button.gridButton x (y - 1)

/-- The double-buffering behavior attached to each color of a rapid update
(only Copy is used by the flush planner). -/
inductive DoubleBufferingBehavior where
  | copy
  | none
  deriving DecidableEq

/-- One wire command emitted by the Mini flush planner: a paired rapid-update
instruction (Output::set_button_rapid) or a single-button light instruction
(Output::light). -/
inductive Command where
  | setButtonRapid (color1 : Color) (dbb1 : DoubleBufferingBehavior)
      (color2 : Color) (dbb2 : DoubleBufferingBehavior)
  | light (button : Button) (color : Color)
  deriving DecidableEq

/-- src/launchpad_mini/mod.rs: COLOR_PRECISION of the Mini device spec. -/
def COLOR_PRECISION : Nat := 4

/-- The convert_color closure of Spec::flush: quantize the full-precision
color to COLOR_PRECISION bits and keep the (red, green) channels. The
quantization itself (crate Color::quantize, absent from src/ and excluded by
spec section 1 as an assumed-provided conversion) is a parameter. -/
def convert_color (quantize : Launchy.Color → Nat → Nat × Nat × Nat)
    (color : Launchy.Color) : Color :=
  let q := quantize color COLOR_PRECISION
  Color.new q.1 q.2.1

/-- The ordered command plan of src/launchpad_mini/mod.rs Spec::flush.
The canvas argument is get_new_unchecked, the pending color of a cell;
changes is the changed-cell slice handed to flush. The three rapid loops
mirror the source: main body rows y = 1..=8 with x stepping by 2 over 0..=7,
then the scene-launch column x = 8 with y stepping by 2 over 1..=8, then the
Automap/live row y = 0 with x stepping by 2 over 0..=7, then one dummy light
command to leave rapid-update mode. -/
def flushCommands (quantize : Launchy.Color → Nat → Nat × Nat × Nat)
    (canvas : Nat → Nat → Launchy.Color)
    (changes : List (Nat × Nat × (Nat × Nat × Nat))) : List Command :=
  if changes.length > 40 then
    -- Set the main body
    ((List.range 8).flatMap (fun i =>
      (List.range 4).map (fun j =>
        Command.setButtonRapid
          (convert_color quantize (canvas (2 * j) (i + 1)))
          DoubleBufferingBehavior.copy
          (convert_color quantize (canvas (2 * j + 1) (i + 1)))
          DoubleBufferingBehavior.copy)))
    ++
    -- Set the scene launch buttons (x = 8)
    ((List.range 4).map (fun j =>
      Command.setButtonRapid
        (convert_color quantize (canvas 8 (2 * j + 1)))
        DoubleBufferingBehavior.copy
        (convert_color quantize (canvas 8 (2 * j + 2)))
        DoubleBufferingBehavior.copy))
    ++
    -- Set the Automap/live buttons (y = 0)
    ((List.range 4).map (fun j =>
      Command.setButtonRapid
        (convert_color quantize (canvas (2 * j) 0))
        DoubleBufferingBehavior.copy
        (convert_color quantize (canvas (2 * j + 1) 0))
        DoubleBufferingBehavior.copy))
    ++
    -- dummy-light some button just to get out of the rapid update mode
    [Command.light (Button.controlButton 0) (convert_color quantize (canvas 0 0))]
  else
    changes.map (fun c =>
      Command.light (Button.from_abs c.1 c.2.1) (Color.new c.2.2.1 c.2.2.2.1))

/-- The fixed hardware traversal order of the rapid-update path, as pairs of
cells per set_button_rapid command: 32 main-body pairs, 4 scene-column pairs,
4 Automap-row pairs. -/
def rapidPairs : List ((Nat × Nat) × (Nat × Nat)) :=
  [ ((0, 1), (1, 1)), ((2, 1), (3, 1)), ((4, 1), (5, 1)), ((6, 1), (7, 1)),
    ((0, 2), (1, 2)), ((2, 2), (3, 2)), ((4, 2), (5, 2)), ((6, 2), (7, 2)),
    ((0, 3), (1, 3)), ((2, 3), (3, 3)), ((4, 3), (5, 3)), ((6, 3), (7, 3)),
    ((0, 4), (1, 4)), ((2, 4), (3, 4)), ((4, 4), (5, 4)), ((6, 4), (7, 4)),
    ((0, 5), (1, 5)), ((2, 5), (3, 5)), ((4, 5), (5, 5)), ((6, 5), (7, 5)),
    ((0, 6), (1, 6)), ((2, 6), (3, 6)), ((4, 6), (5, 6)), ((6, 6), (7, 6)),
    ((0, 7), (1, 7)), ((2, 7), (3, 7)), ((4, 7), (5, 7)), ((6, 7), (7, 7)),
    ((0, 8), (1, 8)), ((2, 8), (3, 8)), ((4, 8), (5, 8)), ((6, 8), (7, 8)),
    ((8, 1), (8, 2)), ((8, 3), (8, 4)), ((8, 5), (8, 6)), ((8, 7), (8, 8)),
    ((0, 0), (1, 0)), ((2, 0), (3, 0)), ((4, 0), (5, 0)), ((6, 0), (7, 0)) ]

/-- The cells covered by the rapid-update path, in traversal order. -/
def rapidCells : List (Nat × Nat) :=
  rapidPairs.flatMap (fun p => [p.1, p.2])

/-- Modelled from the spec: the transport error type (the crate error module
is absent from src/). Spec section 5: a transport send failure is propagated
immediately; the flush planner treats the error value as opaque and the
question-mark operator returns it to the caller unchanged, which is all this
model needs. -/
structure MidiError where
  code : Nat
  deriving DecidableEq

/-- The send loop of Spec::flush: each planned command is handed to the
transport in order (trans n is the outcome of the n-th send call); the
question-mark operator aborts the flush at the first failing send, returning
that error unchanged. Returns the commands actually sent and the result. -/
def sendAll (trans : Nat → Except MidiError Unit) :
    List Command → List Command × Except MidiError Unit
  | [] => ([], Except.ok ())
  | c :: rest =>
    match trans 0 with
    | Except.ok _ =>
      let r := sendAll (fun i => trans (i + 1)) rest
      (c :: r.1, r.2)
    | Except.error e => ([], Except.error e)

/-- src/launchpad_mini/mod.rs Spec::flush: the planning of the command
sequence is pure, so flush factors into the planned command list and the
in-order send loop with first-failure abort. -/
def flush (trans : Nat → Except MidiError Unit)
    (quantize : Launchy.Color → Nat → Nat × Nat × Nat)
    (canvas : Nat → Nat → Launchy.Color)
    (changes : List (Nat × Nat × (Nat × Nat × Nat))) :
    List Command × Except MidiError Unit :=
  sendAll trans (flushCommands quantize canvas changes)

end Mini

/-! Helper lemmas shared by the claim theorems. -/

/-- The rapid-update traversal visits no cell twice. -/
theorem Mini.rapidCells_nodup : Mini.rapidCells.Nodup := by
  decide

/-- The rapid-update traversal covers exactly the valid cells of the Mini
canvas. -/
theorem Mini.rapidCells_cover (x y : Nat) :
    (x, y) ∈ Mini.rapidCells ↔ Mini.is_valid x y = true := by
  by_cases hx : x ≤ 8
  · by_cases hy : y ≤ 8
    · have h : ∀ a ∈ List.range 9, ∀ b ∈ List.range 9,
          ((a, b) ∈ Mini.rapidCells ↔ Mini.is_valid a b = true) := by decide
      exact h x (by simp; omega) y (by simp; omega)
    · constructor
      · intro hmem
        have hbound : ∀ c ∈ Mini.rapidCells, c.2 ≤ 8 := by decide
        have := hbound _ hmem
        simp at this
        omega
      · intro hv
        simp [Mini.is_valid] at hv
        omega
  · constructor
    · intro hmem
      have hbound : ∀ c ∈ Mini.rapidCells, c.1 ≤ 8 := by decide
      have := hbound _ hmem
      simp at this
      omega
    · intro hv
      simp [Mini.is_valid] at hv
      omega

/-- The send loop aborts at the first failing send: if the transport answers
the first k send calls with ok and fails the k-th (zero-based) call with error
e, exactly the first k planned commands are sent and the error value e is
returned unchanged. -/
theorem Mini.sendAll_abort (cmds : List Mini.Command) :
    ∀ (trans : Nat → Except Mini.MidiError Unit) (k : Nat) (e : Mini.MidiError),
    (∀ i, i < k → trans i = Except.ok ()) →
    trans k = Except.error e →
    k < cmds.length →
    Mini.sendAll trans cmds = (cmds.take k, Except.error e) := by
  induction cmds with
  | nil => intro trans k e hok herr hk; simp at hk
  | cons c rest ih =>
    intro trans k e hok herr hk
    cases k with
    | zero =>
      rw [Mini.sendAll, herr]
      rfl
    | succ k =>
      rw [Mini.sendAll, hok 0 (Nat.succ_pos k)]
      have hr := ih (fun i => trans (i + 1)) k e
        (fun i hi => hok (i + 1) (by omega)) herr (by simp at hk; omega)
      rw [hr]
      rfl

/-! Claim theorems. -/

/-- C1 counterexample: as stated over every note-on buffer the claim fails on
the MK2 decoder. For the buffer with note byte 0 and velocity 127 (a multiple
of 10, so the x = (btn mod 10) - 1 computation underflows), decoding is a
malformed-input error instead of the Press the claim requires. -/
theorem C1_counterexample_mk2_note_zero :
    Mk2.decode_short_message [0x90, 0, 127] = none := by
  decide

/-- C1 (amended): for 3-byte note-on buffers, velocity 127 yields Press and
velocity 0 yields Release carrying the same button derived from the note byte,
and any other velocity is a malformed-input error yielding no message value.
This holds unconditionally for the generic decoder; for the MK2 decoder the
press/release half holds exactly when its grid-button decode is defined for
the note byte, and otherwise the decode errors for every velocity, while the
other-velocity-errors half holds unconditionally. -/
theorem C1_note_on_velocity_semantics (n v : Nat) :
    (Generic.decode_short_message [0x90, n, 127]
        = some (Generic.Message.press (Generic.decode_grid_button n)))
    ∧ (Generic.decode_short_message [0x90, n, 0]
        = some (Generic.Message.release (Generic.decode_grid_button n)))
    ∧ (v ≠ 0 → v ≠ 127 → Generic.decode_short_message [0x90, n, v] = none)
    ∧ (∀ b, Mk2.decode_grid_button n = some b →
        Mk2.decode_short_message [0x90, n, 127] = some (Mk2.Message.press b)
        ∧ Mk2.decode_short_message [0x90, n, 0] = some (Mk2.Message.release b))
    ∧ (Mk2.decode_grid_button n = none →
        Mk2.decode_short_message [0x90, n, 127] = none
        ∧ Mk2.decode_short_message [0x90, n, 0] = none)
    ∧ (v ≠ 0 → v ≠ 127 → Mk2.decode_short_message [0x90, n, v] = none) := by
  refine ⟨rfl, rfl, ?_, ?_, ?_, ?_⟩
  · intro h0 h127
    simp [Generic.decode_short_message, h0, h127]
  · intro b hb
    exact ⟨by simp [Mk2.decode_short_message, hb],
           by simp [Mk2.decode_short_message, hb]⟩
  · intro hb
    exact ⟨by simp [Mk2.decode_short_message, hb],
           by simp [Mk2.decode_short_message, hb]⟩
  · intro h0 h127
    cases hb : Mk2.decode_grid_button n with
    | none => simp [Mk2.decode_short_message, hb]
    | some b => simp [Mk2.decode_short_message, hb, h0, h127]

/-- C1 witness: the amended theorem evaluated at note byte 17 and velocity 5.
Note 17 decodes on the MK2 to grid coordinate (6, 7). -/
theorem C1_note_on_velocity_semantics_witness :
    Generic.decode_short_message [0x90, 17, 127]
      = some (Generic.Message.press (Generic.decode_grid_button 17))
    ∧ Mk2.decode_short_message [0x90, 17, 127]
      = some (Mk2.Message.press (Mk2.Button.gridButton 6 7))
    ∧ Mk2.decode_short_message [0x90, 17, 5] = none := by
  refine ⟨(C1_note_on_velocity_semantics 17 5).1, ?_, ?_⟩
  · exact ((C1_note_on_velocity_semantics 17 5).2.2.2.1
      (Mk2.Button.gridButton 6 7) (by decide)).1
  · exact (C1_note_on_velocity_semantics 17 5).2.2.2.2.2 (by decide) (by decide)

/-- C2: the Mini flush plan. With at most 40 changed cells (the threshold,
half the 80 addressable cells) the flush emits exactly one direct light
command per changed cell, in order, and nothing else. With more than 40 it
emits the 40 paired rapid-update commands following the fixed traversal
rapidPairs — whose cells cover every valid cell of the canvas exactly once —
followed by exactly one single light command that exits rapid-update mode. -/
theorem C2_mini_flush_plan (quantize : Launchy.Color → Nat → Nat × Nat × Nat)
    (canvas : Nat → Nat → Launchy.Color)
    (changes : List (Nat × Nat × (Nat × Nat × Nat))) :
    (changes.length ≤ 40 →
      Mini.flushCommands quantize canvas changes
        = changes.map (fun c =>
            Mini.Command.light (Mini.Button.from_abs c.1 c.2.1)
              (Mini.Color.new c.2.2.1 c.2.2.2.1)))
    ∧ (40 < changes.length →
      Mini.flushCommands quantize canvas changes
        = Mini.rapidPairs.map (fun p =>
            Mini.Command.setButtonRapid
              (Mini.convert_color quantize (canvas p.1.1 p.1.2))
              Mini.DoubleBufferingBehavior.copy
              (Mini.convert_color quantize (canvas p.2.1 p.2.2))
              Mini.DoubleBufferingBehavior.copy)
          ++ [Mini.Command.light (Mini.Button.controlButton 0)
                (Mini.convert_color quantize (canvas 0 0))])
    ∧ Mini.rapidCells.Nodup
    ∧ (∀ x y : Nat, ((x, y) ∈ Mini.rapidCells ↔ Mini.is_valid x y = true)) := by
  refine ⟨?_, ?_, Mini.rapidCells_nodup, Mini.rapidCells_cover⟩
  · intro h
    rw [Mini.flushCommands, if_neg (by omega)]
  · intro h
    rw [Mini.flushCommands, if_pos (by omega)]
    rfl

/-- C2 witness: the flush plan evaluated with an identity-style quantizer and
an all-black canvas, once with a single changed cell (direct path) and once
with 41 changed cells (rapid path). -/
theorem C2_mini_flush_plan_witness :
    Mini.flushCommands (fun c _ => (c.red, c.green, c.blue))
        (fun _ _ => { red := 0, green := 0, blue := 0 }) [(2, 3, (7, 8, 9))]
      = [Mini.Command.light (Mini.Button.from_abs 2 3) (Mini.Color.new 7 8)]
    ∧ Mini.flushCommands (fun c _ => (c.red, c.green, c.blue))
        (fun _ _ => { red := 0, green := 0, blue := 0 })
        (List.replicate 41 (0, 1, (0, 0, 0)))
      = Mini.rapidPairs.map (fun p =>
          Mini.Command.setButtonRapid
            (Mini.convert_color (fun c _ => (c.red, c.green, c.blue))
              ((fun _ _ => { red := 0, green := 0, blue := 0 }) p.1.1 p.1.2))
            Mini.DoubleBufferingBehavior.copy
            (Mini.convert_color (fun c _ => (c.red, c.green, c.blue))
              ((fun _ _ => { red := 0, green := 0, blue := 0 }) p.2.1 p.2.2))
            Mini.DoubleBufferingBehavior.copy)
        ++ [Mini.Command.light (Mini.Button.controlButton 0)
              (Mini.convert_color (fun c _ => (c.red, c.green, c.blue))
                ((fun _ _ => ({ red := 0, green := 0, blue := 0 } : Launchy.Color)) 0 0))] := by
  constructor
  · exact (C2_mini_flush_plan (fun c _ => (c.red, c.green, c.blue))
      (fun _ _ => { red := 0, green := 0, blue := 0 }) [(2, 3, (7, 8, 9))]).1 (by decide)
  · exact (C2_mini_flush_plan (fun c _ => (c.red, c.green, c.blue))
      (fun _ _ => { red := 0, green := 0, blue := 0 })
      (List.replicate 41 (0, 1, (0, 0, 0)))).2.1 (by simp)

/-- C3: the code contradicts the claim on the protocols-level version parser.
parse_version_query folds the constant sysex header bytes data[0] = 240 and
data[5] = 112 in as the times-10000 digit, with only four payload digit bytes
behind each, instead of combining five payload digit bytes as the claim (and
spec section 9, which flags this as apparent copy-paste residue) requires.
On the matching 17-byte buffer with digit bytes 1,2,3,4 and 5,6,7,8 it yields
2401234 = 240*10000 + 1234 and 1125678 = 112*10000 + 5678. The per-model sysex
decoder implements the intended formula: on its 21-byte version-inquiry
template with payload digits 1..5 and 6..0 it yields 12345 and 67890, with the
big-endian bootloader size correct in both. -/
theorem C3_version_inquiry_formula_discrepancy :
    Query.parse_version_query [240, 0, 32, 41, 0, 112, 1, 2, 3, 4, 5, 6, 7, 8, 0, 100, 247]
      = some { bootloader_version := 2401234, firmware_version := 1125678, bootloader_size := 100 }
    ∧ Generic.decode_sysex_message
        [240, 0, 32, 41, 0, 112, 1, 2, 3, 4, 5, 6, 7, 8, 9, 0, 0, 0, 0, 100, 247]
      = some (Generic.Message.versionInquiry 12345 67890 100)
    ∧ Mk2.decode_sysex_message
        [240, 0, 32, 41, 0, 112, 1, 2, 3, 4, 5, 6, 7, 8, 9, 0, 0, 0, 0, 100, 247]
      = some (Mk2.Message.versionInquiry 12345 67890 100) := by
  decide

/-- C4: for each model the numeric-to-coordinate mapping and its inverse are
exact inverses over the valid coordinates — composing the spec-modelled
grid-to-wire encoding with the source decoder recovers (x, y) — and the
composition is excluded (no wire number is produced) for every invalid
coordinate. -/
theorem C4_wire_grid_inverse (x y : Nat) :
    (Generic.grid_is_valid x y = true →
      (Generic.grid_to_wire x y).map Generic.decode_grid_button
        = some (Generic.Button.gridButton x y))
    ∧ (Mk2.grid_is_valid x y = true →
      (Mk2.grid_to_wire x y).bind Mk2.decode_grid_button
        = some (Mk2.Button.gridButton x y))
    ∧ (Generic.grid_is_valid x y = false → Generic.grid_to_wire x y = none)
    ∧ (Mk2.grid_is_valid x y = false → Mk2.grid_to_wire x y = none) := by
  refine ⟨?_, ?_, ?_, ?_⟩
  · intro h
    simp [Generic.grid_is_valid] at h
    simp [Generic.grid_to_wire, Generic.grid_is_valid, h, Generic.decode_grid_button]
    constructor <;> omega
  · intro h
    simp [Mk2.grid_is_valid] at h
    simp [Mk2.grid_to_wire, Mk2.grid_is_valid, h, Mk2.decode_grid_button]
    have h1 : ((8 - y) * 10 + (x + 1)) % 10 = x + 1 := by omega
    have h2 : ((8 - y) * 10 + (x + 1)) / 10 = 8 - y := by omega
    rw [h1, h2]
    simp
    omega
  · intro h
    simp [Generic.grid_to_wire, h]
  · intro h
    simp [Mk2.grid_to_wire, h]

/-- C4 witness: the roundtrip at the valid coordinate (3, 4) — wire numbers 67
for the generic model and 44 for the MK2 — and exclusion at the invalid
coordinate (9, 0). -/
theorem C4_wire_grid_inverse_witness :
    (Generic.grid_to_wire 3 4).map Generic.decode_grid_button
      = some (Generic.Button.gridButton 3 4)
    ∧ (Mk2.grid_to_wire 3 4).bind Mk2.decode_grid_button
      = some (Mk2.Button.gridButton 3 4)
    ∧ Generic.grid_to_wire 9 0 = none
    ∧ Mk2.grid_to_wire 9 0 = none := by
  refine ⟨(C4_wire_grid_inverse 3 4).1 (by decide),
          (C4_wire_grid_inverse 3 4).2.1 (by decide),
          (C4_wire_grid_inverse 9 0).2.2.1 (by decide),
          (C4_wire_grid_inverse 9 0).2.2.2 (by decide)⟩

/-- C5: decoding the byte buffer [240,126,1,6,2,0,32,41,0,19,0,2,1,2,0,1,247]
yields a DeviceInquiry with device_id 1, family_code 19, family_member_code 2
and firmware_revision 1201, in the per-model sysex decoders and in the
protocols-level parser alike. -/
theorem C5_device_inquiry_example :
    Generic.decode_sysex_message [240, 126, 1, 6, 2, 0, 32, 41, 0, 19, 0, 2, 1, 2, 0, 1, 247]
      = some (Generic.Message.deviceInquiry 1 19 2 1201)
    ∧ Mk2.decode_sysex_message [240, 126, 1, 6, 2, 0, 32, 41, 0, 19, 0, 2, 1, 2, 0, 1, 247]
      = some (Mk2.Message.deviceInquiry 1 19 2 1201)
    ∧ Query.parse_device_query [240, 126, 1, 6, 2, 0, 32, 41, 0, 19, 0, 2, 1, 2, 0, 1, 247]
      = some { device_id := 1, family_code := 19, family_member_code := 2,
               firmware_revision := 1201 } := by
  decide

/-- C6: controller-change decoding. Numbers in the control-button band
104..111 have the note-on press/release semantics — velocity 127 presses and
velocity 0 releases the ControlButton with index number - 104, any other
velocity is a decode error — in both the generic and the MK2 decoder. Numbers
in the MK2 fader band 21..28 yield FaderChange with index number - 21 and the
raw velocity as value, for every velocity, with no press/release duality. -/
theorem C6_controller_change_semantics (number velocity : Nat) :
    (104 ≤ number ∧ number ≤ 111 →
      Generic.decode_short_message [0xB0, number, 127]
        = some (Generic.Message.press (Generic.Button.controlButton (number - 104)))
      ∧ Generic.decode_short_message [0xB0, number, 0]
        = some (Generic.Message.release (Generic.Button.controlButton (number - 104)))
      ∧ (velocity ≠ 0 → velocity ≠ 127 →
          Generic.decode_short_message [0xB0, number, velocity] = none)
      ∧ Mk2.decode_short_message [0xB0, number, 127]
        = some (Mk2.Message.press (Mk2.Button.controlButton (number - 104)))
      ∧ Mk2.decode_short_message [0xB0, number, 0]
        = some (Mk2.Message.release (Mk2.Button.controlButton (number - 104)))
      ∧ (velocity ≠ 0 → velocity ≠ 127 →
          Mk2.decode_short_message [0xB0, number, velocity] = none))
    ∧ (21 ≤ number ∧ number ≤ 28 →
      Mk2.decode_short_message [0xB0, number, velocity]
        = some (Mk2.Message.faderChange (number - 21) velocity)) := by
  constructor
  · intro h
    refine ⟨by simp [Generic.decode_short_message, h],
            by simp [Generic.decode_short_message, h], ?_,
            by simp [Mk2.decode_short_message, h],
            by simp [Mk2.decode_short_message, h], ?_⟩
    · intro h0 h127
      simp [Generic.decode_short_message, h, h0, h127]
    · intro h0 h127
      simp [Mk2.decode_short_message, h, h0, h127]
  · intro h
    have hnc : ¬(104 ≤ number ∧ number ≤ 111) := by omega
    simp [Mk2.decode_short_message, hnc, h]

/-- C6 witness: the controller-change semantics evaluated at control number
104 with velocity 5 and at fader number 23 with velocity 64. -/
theorem C6_controller_change_semantics_witness :
    Generic.decode_short_message [0xB0, 104, 127]
      = some (Generic.Message.press (Generic.Button.controlButton 0))
    ∧ Generic.decode_short_message [0xB0, 104, 5] = none
    ∧ Mk2.decode_short_message [0xB0, 23, 64]
      = some (Mk2.Message.faderChange 2 64) := by
  refine ⟨?_, ?_, ?_⟩
  · exact (((C6_controller_change_semantics 104 5).1 (by decide)).1)
  · exact ((C6_controller_change_semantics 104 5).1 (by decide)).2.2.1
      (by decide) (by decide)
  · exact (C6_controller_change_semantics 23 64).2 (by decide)

/-- C7: the device-inquiry request for a specific device id at most 126 is
exactly [240,126,id,6,1,247], the broadcast request is [240,126,127,6,1,247],
the version-inquiry request is exactly [240,0,32,41,0,112,247], and a specific
request with the reserved broadcast id 127 is rejected before any bytes are
sent. -/
theorem C7_inquiry_requests (id : Nat) :
    (id ≤ 126 →
      Query.request_device_inquiry (Query.DeviceIdQuery.specific id)
        = some [240, 126, id, 6, 1, 247])
    ∧ Query.request_device_inquiry Query.DeviceIdQuery.any
        = some [240, 126, 127, 6, 1, 247]
    ∧ Query.request_version_inquiry = [240, 0, 32, 41, 0, 112, 247]
    ∧ Query.request_device_inquiry (Query.DeviceIdQuery.specific 127) = none := by
  refine ⟨fun h => ?_, rfl, rfl, rfl⟩
  simp only [Query.request_device_inquiry]
  rw [if_neg (by omega)]

/-- C7 witness: the inquiry requests evaluated at the specific device id 3. -/
theorem C7_inquiry_requests_witness :
    Query.request_device_inquiry (Query.DeviceIdQuery.specific 3)
      = some [240, 126, 3, 6, 1, 247]
    ∧ Query.request_device_inquiry (Query.DeviceIdQuery.specific 127) = none :=
  ⟨(C7_inquiry_requests 3).1 (by decide), (C7_inquiry_requests 3).2.2.2⟩

/-- C8 counterexample: the surfaced failure does not carry the count or
identity of the commands not yet sent. Two flushes over the same always-failing
transport, one with one planned command and one with two, surface the very same
error value while leaving different numbers of planned commands unsent, so the
failure surfaced to the caller cannot convey that count. -/
theorem C8_counterexample :
    (Mini.flush (fun _ => Except.error { code := 0 })
        (fun c _ => (c.red, c.green, c.blue))
        (fun _ _ => { red := 0, green := 0, blue := 0 })
        [(0, 1, (0, 0, 0))]).2
      = (Mini.flush (fun _ => Except.error { code := 0 })
          (fun c _ => (c.red, c.green, c.blue))
          (fun _ _ => { red := 0, green := 0, blue := 0 })
          [(0, 1, (0, 0, 0)), (1, 1, (0, 0, 0))]).2
    ∧ (Mini.flushCommands (fun c _ => (c.red, c.green, c.blue))
        (fun _ _ => { red := 0, green := 0, blue := 0 })
        [(0, 1, (0, 0, 0))]).length
      - (Mini.flush (fun _ => Except.error { code := 0 })
          (fun c _ => (c.red, c.green, c.blue))
          (fun _ _ => { red := 0, green := 0, blue := 0 })
          [(0, 1, (0, 0, 0))]).1.length = 1
    ∧ (Mini.flushCommands (fun c _ => (c.red, c.green, c.blue))
        (fun _ _ => { red := 0, green := 0, blue := 0 })
        [(0, 1, (0, 0, 0)), (1, 1, (0, 0, 0))]).length
      - (Mini.flush (fun _ => Except.error { code := 0 })
          (fun c _ => (c.red, c.green, c.blue))
          (fun _ _ => { red := 0, green := 0, blue := 0 })
          [(0, 1, (0, 0, 0)), (1, 1, (0, 0, 0))]).1.length = 2 :=
  ⟨rfl, rfl, rfl⟩

/-- C8 (amended): during a flush, if the k-th send call fails after k
successful sends, exactly the first k planned commands have been sent, no
further planned command of the flush is sent, and the transport's error value
is surfaced to the caller unchanged; the error itself carries no count or
identity of the unsent commands. -/
theorem C8_flush_abort_propagates (trans : Nat → Except Mini.MidiError Unit)
    (quantize : Launchy.Color → Nat → Nat × Nat × Nat)
    (canvas : Nat → Nat → Launchy.Color)
    (changes : List (Nat × Nat × (Nat × Nat × Nat)))
    (k : Nat) (e : Mini.MidiError)
    (hok : ∀ i, i < k → trans i = Except.ok ())
    (herr : trans k = Except.error e)
    (hk : k < (Mini.flushCommands quantize canvas changes).length) :
    Mini.flush trans quantize canvas changes
      = ((Mini.flushCommands quantize canvas changes).take k, Except.error e) :=
  Mini.sendAll_abort (Mini.flushCommands quantize canvas changes) trans k e hok herr hk

/-- C8 witness: a transport failing on the second send during a two-command
direct flush — only the first command is sent and the error is surfaced. -/
theorem C8_flush_abort_propagates_witness :
    Mini.flush (fun i => if i = 0 then Except.ok () else Except.error { code := 7 })
        (fun c _ => (c.red, c.green, c.blue))
        (fun _ _ => { red := 0, green := 0, blue := 0 })
        [(0, 1, (1, 2, 3)), (4, 5, (6, 7, 8))]
      = ((Mini.flushCommands (fun c _ => (c.red, c.green, c.blue))
            (fun _ _ => { red := 0, green := 0, blue := 0 })
            [(0, 1, (1, 2, 3)), (4, 5, (6, 7, 8))]).take 1,
         Except.error { code := 7 }) := by
  exact C8_flush_abort_propagates _ _ _ _ 1 _
    (fun i hi => by
      have h : i = 0 := by omega
      subst h
      rfl)
    rfl
    (by decide)

/-- C9: the MK2 grid-button decode is not total over note bytes. Whenever the
note byte is a multiple of 10 the x = (btn mod 10) - 1 computation underflows
the unsigned byte, so neither the button nor the press/release decode of such
a note-on buffer produces a value; and whenever the decode is well-defined the
note byte satisfies btn mod 10 at least 1. -/
theorem C9_mk2_grid_decode_not_total (btn : Nat) :
    (btn % 10 = 0 →
      Mk2.decode_grid_button btn = none
      ∧ Mk2.decode_short_message [0x90, btn, 127] = none
      ∧ Mk2.decode_short_message [0x90, btn, 0] = none)
    ∧ (∀ b, Mk2.decode_grid_button btn = some b → 1 ≤ btn % 10) := by
  constructor
  · intro h
    have hb : Mk2.decode_grid_button btn = none := by
      simp [Mk2.decode_grid_button, h]
    exact ⟨hb, by simp [Mk2.decode_short_message, hb],
           by simp [Mk2.decode_short_message, hb]⟩
  · intro b hb
    unfold Mk2.decode_grid_button at hb
    split at hb
    · exact absurd hb (by simp)
    · omega

/-- C9 witness: the partiality evaluated at note byte 20 (decode errors) and
the necessity of btn mod 10 at least 1 at note byte 11. -/
theorem C9_mk2_grid_decode_not_total_witness :
    Mk2.decode_short_message [0x90, 20, 127] = none ∧ (1 : Nat) ≤ 11 % 10 :=
  ⟨((C9_mk2_grid_decode_not_total 20).1 (by decide)).2.1,
   (C9_mk2_grid_decode_not_total 11).2 (Mk2.Button.gridButton 0 7) (by decide)⟩

/-- C10: the two independent device-inquiry parsers agree. On every buffer
matching the 17-byte device-inquiry reply template, the per-model sysex
decoders and the protocols-level parse_device_query produce the same
device_id, family_code, family_member_code and firmware_revision; and
parse_device_query returns none exactly on the buffers not matching the
template. -/
theorem C10_device_inquiry_parsers_agree :
    (∀ device_id fc1 fc2 fmc1 fmc2 fr1 fr2 fr3 fr4 : Nat,
      Query.parse_device_query [240, 126, device_id, 6, 2, 0, 32, 41,
          fc1, fc2, fmc1, fmc2, fr1, fr2, fr3, fr4, 247]
        = some { device_id := device_id
                 family_code := u16_from_be fc1 fc2
                 family_member_code := u16_from_be fmc1 fmc2
                 firmware_revision := fr1 * 1000 + fr2 * 100 + fr3 * 10 + fr4 }
      ∧ Generic.decode_sysex_message [240, 126, device_id, 6, 2, 0, 32, 41,
          fc1, fc2, fmc1, fmc2, fr1, fr2, fr3, fr4, 247]
        = some (Generic.Message.deviceInquiry device_id
            (u16_from_be fc1 fc2) (u16_from_be fmc1 fmc2)
            (fr1 * 1000 + fr2 * 100 + fr3 * 10 + fr4))
      ∧ Mk2.decode_sysex_message [240, 126, device_id, 6, 2, 0, 32, 41,
          fc1, fc2, fmc1, fmc2, fr1, fr2, fr3, fr4, 247]
        = some (Mk2.Message.deviceInquiry device_id
            (u16_from_be fc1 fc2) (u16_from_be fmc1 fmc2)
            (fr1 * 1000 + fr2 * 100 + fr3 * 10 + fr4)))
    ∧ (∀ data : List Nat,
        Query.parse_device_query data = none ↔ ¬ Query.IsDeviceInquiryReply data) := by
  constructor
  · intro device_id fc1 fc2 fmc1 fmc2 fr1 fr2 fr3 fr4
    exact ⟨rfl, rfl, rfl⟩
  · intro data
    constructor
    · intro h hreply
      obtain ⟨id, fc1, fc2, fmc1, fmc2, fr1, fr2, fr3, fr4, rfl⟩ := hreply
      simp [Query.parse_device_query] at h
    · intro h
      cases hp : Query.parse_device_query data with
      | none => rfl
      | some di =>
        exfalso
        apply h
        unfold Query.parse_device_query at hp
        split at hp
        · exact ⟨_, _, _, _, _, _, _, _, _, rfl⟩
        · exact absurd hp (by simp)

/-- C10 witness: the agreement evaluated on a concrete matching buffer, and
the none-exactly-on-non-matching half evaluated on the non-matching buffer
[1, 2, 3]. -/
theorem C10_device_inquiry_parsers_agree_witness :
    Query.parse_device_query [240, 126, 1, 6, 2, 0, 32, 41, 0, 19, 0, 2, 1, 2, 0, 1, 247]
      = some { device_id := 1
               family_code := u16_from_be 0 19
               family_member_code := u16_from_be 0 2
               firmware_revision := 1 * 1000 + 2 * 100 + 0 * 10 + 1 }
    ∧ ¬ Query.IsDeviceInquiryReply [1, 2, 3] :=
  ⟨(C10_device_inquiry_parsers_agree.1 1 0 19 0 2 1 2 0 1).1,
   (C10_device_inquiry_parsers_agree.2 [1, 2, 3]).mp (by decide)⟩

end Launchy
